import Mathlib

/-!
Verification of the comment-classification and closed-loop comparison engine of the
Mining-Software-Repository pipeline.

Texts and participant logins are modelled as `List Char` (the character sequence of the
Python string); a pandas-nullable field is `Option _` with `none` for NaN.  Each
definition below is a direct translation of the corresponding Python function or
script fragment; the file then proves or refutes the frozen specification claims.
-/

/-- `toLower` applied characterwise: the model of Python `str.lower()`. -/
def lowerL (s : List Char) : List Char := s.map Char.toLower

/-- Boolean prefix test on character lists. -/
def isPrefixL : List Char → List Char → Bool
  | [], _ => true
  | _ :: _, [] => false
  | a :: as, b :: bs => a == b && isPrefixL as bs

/-- All suffixes of a character list (the list itself first, `[]` last). -/
def tailsL : List Char → List (List Char)
  | [] => [[]]
  | c :: cs => (c :: cs) :: tailsL cs

/-- Model of the Python substring test `pat in s`. -/
def containsSub (s pat : List Char) : Bool :=
  (tailsL s).any (fun t => isPrefixL pat t)

/-- Number of starting positions of `s` at which `pat` occurs as a substring.
Used only to state the spec's literal "count of substring occurrences" reading. -/
def occCount (pat s : List Char) : Nat :=
  ((tailsL s).filter (fun t => isPrefixL pat t)).length

/-! ### Keyword taxonomy (04_metrics_rq2.py, module constants) -/

def CORRECTIVE_KEYWORDS : List (List Char) :=
  [("bug").data, ("error").data, ("fix").data, ("wrong").data, ("incorrect").data,
   ("mistake").data, ("issue").data, ("problem").data, ("broken").data, ("fails").data,
   ("exception").data, ("crash").data, ("null").data, ("undefined").data]

def STYLE_KEYWORDS : List (List Char) :=
  [("style").data, ("format").data, ("indent").data, ("spacing").data, ("naming").data,
   ("convention").data, ("lint").data, ("pep8").data, ("pylint").data, ("formatting").data,
   ("whitespace").data, ("semicolon").data, ("brace").data]

def SECURITY_KEYWORDS : List (List Char) :=
  [("security").data, ("vulnerability").data, ("xss").data, ("sql injection").data,
   ("csrf").data, ("auth").data, ("authentication").data, ("authorization").data,
   ("password").data, ("token").data, ("secret").data, ("key").data, ("encrypt").data,
   ("hash").data, ("sanitize").data, ("escape").data, ("injection").data]

def TESTING_KEYWORDS : List (List Char) :=
  [("test").data, ("testing").data, ("coverage").data, ("unit test").data,
   ("integration").data, ("mock").data, ("assert").data, ("should test").data,
   ("missing test").data, ("test case").data, ("scenario").data]

/-- `positive_words` of `analyze_sentiment` (04_metrics_rq2.py). -/
def positive_words : List (List Char) :=
  [("good").data, ("great").data, ("nice").data, ("excellent").data, ("perfect").data,
   ("thanks").data, ("thank you").data, ("approved").data, ("looks good").data,
   ("well done").data, ("lgtm").data]

/-- `negative_words` of `analyze_sentiment` (04_metrics_rq2.py); the apostrophe of
the sixth phrase is written via its code point. -/
def negative_words : List (List Char) :=
  [("bad").data, ("wrong").data, ("incorrect").data, ("should not").data,
   ['d', 'o', 'n', Char.ofNat 39, 't'], ("cannot").data, ("error").data,
   ("issue").data, ("problem").data, ("concern").data, ("worried").data,
   ("disappointed").data]

/-! ### Comment classifier (04_metrics_rq2.py) -/

/-- `categorize_comment` (04_metrics_rq2.py lines 53-86).  `none` models a NaN text. -/
def categorize_comment (comment_text : Option (List Char)) : List String :=
  match comment_text with
  | none => []
  | some t =>
      let text_lower := lowerL t
      let categories :=
        (if CORRECTIVE_KEYWORDS.any (fun k => containsSub text_lower k)
         then ["corrective"] else []) ++
        (if STYLE_KEYWORDS.any (fun k => containsSub text_lower k)
         then ["style"] else []) ++
        (if SECURITY_KEYWORDS.any (fun k => containsSub text_lower k)
         then ["security"] else []) ++
        (if TESTING_KEYWORDS.any (fun k => containsSub text_lower k)
         then ["testing"] else [])
      if categories = [] then ["other"] else categories

/-- `analyze_sentiment` (04_metrics_rq2.py lines 89-127): each keyword phrase
contributes 1 when it occurs as a substring (`sum(1 for word in words if word in text)`). -/
def analyze_sentiment (comment_text : Option (List Char)) : String :=
  match comment_text with
  | none => "neutral"
  | some t =>
      let text_lower := lowerL t
      let positive_count := (positive_words.filter (fun w => containsSub text_lower w)).length
      let negative_count := (negative_words.filter (fun w => containsSub text_lower w)).length
      if positive_count > negative_count then "positive"
      else if negative_count > positive_count then "negative"
      else "neutral"

/-- The sentiment rule under the literal reading that compares the total numbers of
substring occurrences of the keyword phrases (each phrase counted once per occurrence);
stated from the spec's words, to be compared with `analyze_sentiment`. -/
def sentimentByOccurrences (t : List Char) : String :=
  let tl := lowerL t
  let pc := (positive_words.map (fun w => occCount w tl)).sum
  let nc := (negative_words.map (fun w => occCount w tl)).sum
  if pc > nc then "positive"
  else if nc > pc then "negative"
  else "neutral"

/-! ### Expansion step (04_metrics_rq2.py lines 158-180) -/

structure CommentRow where
  pr_id : Nat
  comment_id : Nat
  body : Option (List Char)
deriving DecidableEq

structure ExpandedRow where
  pr_id : Nat
  comment_id : Nat
  category : String
  sentiment : String
  has_multiple_categories : Bool
deriving DecidableEq

/-- Body of the expansion loop for one classified comment: one row per category when
the category list is non-empty, otherwise a single default "other" row. -/
def expandComment (c : CommentRow) : List ExpandedRow :=
  let cats := categorize_comment c.body
  let sent := analyze_sentiment c.body
  if cats.length > 0 then
    cats.map (fun cat =>
      { pr_id := c.pr_id, comment_id := c.comment_id, category := cat,
        sentiment := sent, has_multiple_categories := decide (cats.length > 1) })
  else
    [{ pr_id := c.pr_id, comment_id := c.comment_id, category := "other",
       sentiment := sent, has_multiple_categories := false }]

/-- `expanded_rows` (04_metrics_rq2.py lines 160-180): concatenation of the per-comment
expansions over the whole comment collection. -/
def expanded_rows (data : List CommentRow) : List ExpandedRow :=
  data.flatMap expandComment

/-! ### Bot/human attribution (02_preprocess.py lines 71-124) -/

/-- `BOT_KEYWORDS` (02_preprocess.py lines 71-73). -/
def BOT_KEYWORDS : List (List Char) :=
  [("copilot").data, ("cursor").data, ("codex").data, ("claude").data, ("devin").data]

/-- One row of `pr_reviews` or `pr_comments`: its PR link and its login column
(`none` models a NaN login, turned into the empty string by `fillna("")`). -/
structure SrcRow where
  prId : Nat
  login : Option (List Char)
deriving DecidableEq

/-- The logins grouped under one PR id (`groupby(pr_id)[login].apply(list)`), after
`fillna("")`. -/
def groupLogins (rows : List SrcRow) (k : Nat) : List (List Char) :=
  (rows.filter (fun r => r.prId = k)).map (fun r => r.login.getD [])

/-- `any(any(kw in l.lower() for kw in BOT_KEYWORDS) for l in logins)`. -/
def hasBotLogin (logins : List (List Char)) : Bool :=
  logins.any (fun l => BOT_KEYWORDS.any (fun kw => containsSub (lowerL l) kw))

/-- Whether a PR has bot evidence in one source: some row of the source links to the
PR and its login case-insensitively contains a bot keyword. -/
def hasBotEvidence (rows : List SrcRow) (k : Nat) : Bool :=
  hasBotLogin (groupLogins rows k)

/-- Whether a PR appears at all (with any login, NaN included) in one source. -/
def hasRowsFor (rows : List SrcRow) (k : Nat) : Bool :=
  rows.any (fun r => r.prId = k)

/-- Loop body of the attribution passes, for the group of one PR id: the bot case
assigns `"bot"` (overwriting), the other case is `setdefault(pr_id, "human")`.
The map is modelled as a function `Nat → Option String`. -/
def stepKey (rows : List SrcRow) (acc : Nat → Option String) (k : Nat) :
    Nat → Option String :=
  if hasBotLogin (groupLogins rows k) then
    fun j => if j = k then some "bot" else acc j
  else
    fun j => if j = k ∧ (acc k).isNone then some "human" else acc j

/-- One attribution pass over one source: iterate the loop body over the distinct PR
ids of the source (each group is processed exactly once; the iteration order over
distinct keys does not affect the map, and pandas' sorted key order is modelled by
first-occurrence order). -/
def processSource (rows : List SrcRow) (acc : Nat → Option String) :
    Nat → Option String :=
  ((rows.map (fun r => r.prId)).dedup).foldl (stepKey rows) acc

/-- `reviewer_type_map` (02_preprocess.py lines 94-118): the reviews pass runs on the
empty map, then the comments pass runs on its result. -/
def reviewer_type_map (pr_reviews pr_comments : List SrcRow) : Nat → Option String :=
  processSource pr_comments (processSource pr_reviews (fun _ => none))

/-- `map_reviewer_type` (02_preprocess.py lines 121-124): lookup with default "none". -/
def map_reviewer_type (pr_reviews pr_comments : List SrcRow) (prId : Nat) : String :=
  (reviewer_type_map pr_reviews pr_comments prId).getD "none"

/-! ### RQ3 cohorts, descriptives and test guards (05_metrics_rq3.py) -/

/-- One row of `rq3_data`: an AI PR with its nullable numeric fields.  `closed_loop`
and `merged` are pandas numeric columns (0/1, possibly NaN), durations and comment
counts are floats, all modelled over `ℚ` with `none` for NaN. -/
structure RQ3Row where
  id : Nat
  closed_loop : Option Nat
  merged : Option Nat
  review_duration_hours : Option ℚ
  n_comments : Option ℚ
deriving DecidableEq

/-- `closed_loop_prs` (05_metrics_rq3.py line 44): rows with `closed_loop == 1`. -/
def closed_loop_prs (data : List RQ3Row) : List RQ3Row :=
  data.filter (fun r => r.closed_loop = some 1)

/-- `open_loop_prs` (05_metrics_rq3.py line 47): rows with `closed_loop == 0`. -/
def open_loop_prs (data : List RQ3Row) : List RQ3Row :=
  data.filter (fun r => r.closed_loop = some 0)

/-- Rows selected by neither boolean comparison (a NaN or out-of-range `closed_loop`
compares unequal to both 1 and 0); the complement of the two cohorts. -/
def excluded_prs (data : List RQ3Row) : List RQ3Row :=
  data.filter (fun r => r.closed_loop ≠ some 1 ∧ r.closed_loop ≠ some 0)

/-- `closed_loop_duration` (line 72): the cohort's duration column after `dropna()`. -/
def closed_loop_duration (data : List RQ3Row) : List ℚ :=
  (closed_loop_prs data).filterMap (fun r => r.review_duration_hours)

/-- `open_loop_duration` (line 73). -/
def open_loop_duration (data : List RQ3Row) : List ℚ :=
  (open_loop_prs data).filterMap (fun r => r.review_duration_hours)

/-- `closed_loop_comments` (line 120). -/
def closed_loop_comments (data : List RQ3Row) : List ℚ :=
  (closed_loop_prs data).filterMap (fun r => r.n_comments)

/-- `open_loop_comments` (line 121). -/
def open_loop_comments (data : List RQ3Row) : List ℚ :=
  (open_loop_prs data).filterMap (fun r => r.n_comments)

/-- Insertion into a `≤`-sorted rational list. -/
def insertSorted (x : ℚ) : List ℚ → List ℚ
  | [] => [x]
  | y :: ys => if x ≤ y then x :: y :: ys else y :: insertSorted x ys

/-- Sorting, used by the median. -/
def sortQ (l : List ℚ) : List ℚ := l.foldr insertSorted []

/-- pandas `Series.median()` on a non-NaN series: middle element for odd length,
mean of the two middles for even length (0 on the empty list, never used there). -/
def pandasMedian (l : List ℚ) : ℚ :=
  let s := sortQ l
  if l.length % 2 = 1 then s.getD (l.length / 2) 0
  else (s.getD (l.length / 2 - 1) 0 + s.getD (l.length / 2) 0) / 2

/-- pandas `Series.mean()` on a non-NaN series. -/
def meanQ (l : List ℚ) : ℚ := l.sum / (l.length : ℚ)

/-- One descriptive row appended for a cohort's duration series (lines 75-97).  The
`std`/`q25`/`q75` entries of the source dict are further float descriptives of the
same non-missing series and play no role in row emission or counting. -/
structure DescRow where
  metric : String
  group : String
  median : ℚ
  mean : ℚ
  count : Nat
deriving DecidableEq

/-- The duration descriptive rows (05_metrics_rq3.py lines 75-97): a cohort's row is
appended only under `if len(series) > 0`. -/
def durationDescRows (data : List RQ3Row) : List DescRow :=
  (if (closed_loop_duration data).length > 0 then
    [{ metric := "review_duration_hours", group := "closed-loop",
       median := pandasMedian (closed_loop_duration data),
       mean := meanQ (closed_loop_duration data),
       count := (closed_loop_duration data).length }]
   else []) ++
  (if (open_loop_duration data).length > 0 then
    [{ metric := "review_duration_hours", group := "open-loop",
       median := pandasMedian (open_loop_duration data),
       mean := meanQ (open_loop_duration data),
       count := (open_loop_duration data).length }]
   else [])

/-- Mann-Whitney U statistic of the first sample (ties counted half), the value
scipy's `mannwhitneyu` returns as `u_stat`. -/
def mannWhitneyU (a b : List ℚ) : ℚ :=
  (a.map (fun x =>
    ((b.filter (fun y => y < x)).length : ℚ) +
    ((b.filter (fun y => y = x)).length : ℚ) / 2)).sum

/-- The `cliffs_delta` package: the dominance statistic and its qualitative band. -/
def cliffs_delta (a b : List ℚ) : ℚ × String :=
  let num : ℤ :=
    (a.map (fun x =>
      (((b.filter (fun y => y < x)).length : ℤ) -
       ((b.filter (fun y => x < y)).length : ℤ)))).sum
  let d : ℚ := (num : ℚ) / ((a.length : ℚ) * (b.length : ℚ))
  (d, if |d| < 147 / 1000 then "negligible"
      else if |d| < 33 / 100 then "small"
      else if |d| < 474 / 1000 then "medium"
      else "large")

/-- One Mann-Whitney result row (lines 159-166 and 196-203).  The p-value of the
source row is scipy's float output of the same guarded call and is not modelled; it
exists exactly when the row exists. -/
structure MWRow where
  metric : String
  test : String
  statistic : ℚ
  effect_size : ℚ
  effect_interpretation : String
deriving DecidableEq

/-- Lines 149-166: the duration Mann-Whitney U test and Cliff's delta run only under
`if len(closed_loop_duration) > 0 and len(open_loop_duration) > 0`. -/
def durationTestRows (data : List RQ3Row) : List MWRow :=
  if (closed_loop_duration data).length > 0 ∧ (open_loop_duration data).length > 0 then
    [{ metric := "review_duration_hours", test := "Mann-Whitney U",
       statistic := mannWhitneyU (closed_loop_duration data) (open_loop_duration data),
       effect_size := (cliffs_delta (closed_loop_duration data) (open_loop_duration data)).1,
       effect_interpretation :=
         (cliffs_delta (closed_loop_duration data) (open_loop_duration data)).2 }]
  else []

/-- Lines 187-203: the same guarded test for `n_comments`. -/
def commentsTestRows (data : List RQ3Row) : List MWRow :=
  if (closed_loop_comments data).length > 0 ∧ (open_loop_comments data).length > 0 then
    [{ metric := "n_comments", test := "Mann-Whitney U",
       statistic := mannWhitneyU (closed_loop_comments data) (open_loop_comments data),
       effect_size := (cliffs_delta (closed_loop_comments data) (open_loop_comments data)).1,
       effect_interpretation :=
         (cliffs_delta (closed_loop_comments data) (open_loop_comments data)).2 }]
  else []

/-- The (closed_loop, merged) pairs `pd.crosstab` tabulates (lines 170-173): rows
where either series is NaN are dropped. -/
def ctPairs (data : List RQ3Row) : List (Nat × Nat) :=
  data.filterMap (fun r =>
    match r.closed_loop, r.merged with
    | some a, some b => some (a, b)
    | _, _ => none)

/-- The crosstab's index categories: the distinct observed `closed_loop` values. -/
def ctRowKeys (data : List RQ3Row) : List Nat :=
  ((ctPairs data).map Prod.fst).dedup

/-- The crosstab's column categories: the distinct observed `merged` values. -/
def ctColKeys (data : List RQ3Row) : List Nat :=
  ((ctPairs data).map Prod.snd).dedup

/-- `contingency_table.size`: number of cells of the crosstab. -/
def contingency_table_size (data : List RQ3Row) : Nat :=
  (ctRowKeys data).length * (ctColKeys data).length

/-- A chi-square result row (lines 178-184); its statistic, p-value and degrees of
freedom are scipy float outputs of the same guarded call, not modelled. -/
structure ChiRow where
  metric : String
  test : String
deriving DecidableEq

/-- Lines 175-184: the chi-square result row is appended under the guard
`if contingency_table.size > 0`. -/
def chiSquareRows (data : List RQ3Row) : List ChiRow :=
  if contingency_table_size data > 0 then
    [{ metric := "merge_rate", test := "Chi-square" }]
  else []

/-! ## Helper lemmas -/

/-- The loop body leaves every other PR's entry unchanged. -/
theorem stepKey_apply_ne (rows : List SrcRow) (acc : Nat → Option String) (k j : Nat)
    (h : j ≠ k) : stepKey rows acc k j = acc j := by
  by_cases hb : hasBotLogin (groupLogins rows k) <;> simp [stepKey, hb, h]

/-- The loop body's effect on its own PR's entry. -/
theorem stepKey_apply_self (rows : List SrcRow) (acc : Nat → Option String) (k : Nat) :
    stepKey rows acc k k =
      if hasBotLogin (groupLogins rows k) then some "bot"
      else if (acc k).isNone then some "human" else acc k := by
  by_cases hb : hasBotLogin (groupLogins rows k)
  · simp [stepKey, hb]
  · by_cases h : (acc k).isNone <;> simp [stepKey, hb, h]

theorem foldl_stepKey_notmem (rows : List SrcRow) (keys : List Nat) :
    ∀ (acc : Nat → Option String) (k : Nat), k ∉ keys →
      keys.foldl (stepKey rows) acc k = acc k := by
  induction keys with
  | nil => intro acc k _; rfl
  | cons a rest ih =>
    intro acc k h
    have h1 : k ≠ a := fun e => h (e ▸ List.mem_cons_self a rest)
    have h2 : k ∉ rest := fun e => h (List.mem_cons_of_mem a e)
    simp only [List.foldl_cons]
    rw [ih _ _ h2, stepKey_apply_ne _ _ _ _ h1]

theorem foldl_stepKey_mem (rows : List SrcRow) (keys : List Nat) :
    ∀ (acc : Nat → Option String) (k : Nat), keys.Nodup → k ∈ keys →
      keys.foldl (stepKey rows) acc k =
        (if hasBotLogin (groupLogins rows k) then some "bot"
         else if (acc k).isNone then some "human" else acc k) := by
  induction keys with
  | nil => intro acc k _ h; cases h
  | cons a rest ih =>
    intro acc k hnd hmem
    simp only [List.foldl_cons]
    rcases List.mem_cons.mp hmem with he | hr
    · subst he
      have hk : k ∉ rest := (List.nodup_cons.mp hnd).1
      rw [foldl_stepKey_notmem rows rest _ _ hk, stepKey_apply_self]
    · have h1 : k ≠ a := by
        intro e; subst e; exact (List.nodup_cons.mp hnd).1 hr
      rw [ih _ _ (List.nodup_cons.mp hnd).2 hr, stepKey_apply_ne _ _ _ _ h1]

theorem hasRowsFor_iff_mem_dedup (rows : List SrcRow) (k : Nat) :
    hasRowsFor rows k = true ↔ k ∈ (rows.map (fun r => r.prId)).dedup := by
  simp only [hasRowsFor, List.any_eq_true, decide_eq_true_eq, List.mem_dedup,
    List.mem_map]

theorem hasBotEvidence_imp_hasRowsFor (rows : List SrcRow) (k : Nat)
    (h : hasBotEvidence rows k = true) : hasRowsFor rows k = true := by
  simp only [hasBotEvidence, hasBotLogin, groupLogins, List.any_eq_true, List.mem_map,
    List.mem_filter, decide_eq_true_eq] at h
  obtain ⟨l, ⟨r, ⟨hr, hpk⟩, _⟩, _⟩ := h
  simp only [hasRowsFor, List.any_eq_true, decide_eq_true_eq]
  exact ⟨r, hr, hpk⟩

/-- One attribution pass, described extensionally at one PR id. -/
theorem processSource_apply (rows : List SrcRow) (acc : Nat → Option String) (k : Nat) :
    processSource rows acc k =
      if hasRowsFor rows k then
        (if hasBotEvidence rows k then some "bot"
         else if (acc k).isNone then some "human" else acc k)
      else acc k := by
  unfold processSource
  by_cases h : hasRowsFor rows k = true
  · rw [if_pos h]
    exact foldl_stepKey_mem rows _ acc k (List.nodup_dedup _)
      ((hasRowsFor_iff_mem_dedup rows k).mp h)
  · rw [if_neg h]
    refine foldl_stepKey_notmem rows _ acc k ?_
    intro hmem
    exact h ((hasRowsFor_iff_mem_dedup rows k).mpr hmem)

/-- Full extensional description of the attribution result for any PR id. -/
theorem map_reviewer_type_eq (rv cm : List SrcRow) (k : Nat) :
    map_reviewer_type rv cm k =
      (if hasBotEvidence rv k || hasBotEvidence cm k then "bot"
       else if hasRowsFor rv k || hasRowsFor cm k then "human" else "none") := by
  unfold map_reviewer_type reviewer_type_map
  rw [processSource_apply, processSource_apply]
  by_cases brv : hasBotEvidence rv k = true <;>
    by_cases bcm : hasBotEvidence cm k = true <;>
    by_cases prv : hasRowsFor rv k = true <;>
    by_cases pcm : hasRowsFor cm k = true <;>
    first
      | exact absurd (hasBotEvidence_imp_hasRowsFor rv k brv) prv
      | exact absurd (hasBotEvidence_imp_hasRowsFor cm k bcm) pcm
      | simp [brv, bcm, prv, pcm]

/-! ## Claim theorems -/

/-- Claim C4 (confirmed): over the participant identifiers gathered from reviews and
comments, attribution yields "bot" exactly when some identifier of either source
case-insensitively contains a bot keyword (bot evidence is never downgraded by the
other source), otherwise "human" when the PR has at least one review or comment row,
otherwise "none"; and the result is the same when the two evidence sources are
processed in the opposite order. -/
theorem map_reviewer_type_spec (rv cm : List SrcRow) (k : Nat) :
    (map_reviewer_type rv cm k =
      (if hasBotEvidence rv k || hasBotEvidence cm k then "bot"
       else if hasRowsFor rv k || hasRowsFor cm k then "human" else "none"))
    ∧ map_reviewer_type rv cm k = map_reviewer_type cm rv k := by
  refine ⟨map_reviewer_type_eq rv cm k, ?_⟩
  rw [map_reviewer_type_eq rv cm k, map_reviewer_type_eq cm rv k,
    Bool.or_comm (hasBotEvidence rv k), Bool.or_comm (hasRowsFor rv k)]

/-- Claim C10 (confirmed): a PR appearing with at least one row in the reviews or the
comments collection is never attributed "none", even when its identifiers are all
null (a null login is coerced to the empty string and still counts as human
evidence): without bot evidence it is attributed "human". -/
theorem map_reviewer_type_present_not_none (rv cm : List SrcRow) (k : Nat)
    (h : hasRowsFor rv k = true ∨ hasRowsFor cm k = true) :
    map_reviewer_type rv cm k ≠ "none"
    ∧ (hasBotEvidence rv k = false → hasBotEvidence cm k = false →
        map_reviewer_type rv cm k = "human") := by
  have hor : (hasRowsFor rv k || hasRowsFor cm k) = true := by
    rcases h with h | h <;> simp [h]
  rw [map_reviewer_type_eq]
  constructor
  · by_cases hb : (hasBotEvidence rv k || hasBotEvidence cm k) = true <;>
      simp [hb, hor]
  · intro h1 h2
    simp [h1, h2, hor]

/-- Witness for C10: a PR whose only review row has a null login is attributed
"human", not "none". -/
theorem map_reviewer_type_present_not_none_witness :
    map_reviewer_type [⟨1, none⟩] [] 1 = "human"
    ∧ map_reviewer_type [⟨1, none⟩] [] 1 ≠ "none" := by
  have h := map_reviewer_type_present_not_none [⟨1, none⟩] [] 1 (Or.inl (by decide))
  exact ⟨h.2 (by decide) (by decide), h.1⟩

/-- Splitting a list along three mutually exclusive, jointly exhaustive boolean
predicates preserves its length. -/
theorem length_filter_three {α : Type} (p q s : α → Bool) (l : List α)
    (h : ∀ a, (p a = true ∧ q a = false ∧ s a = false)
        ∨ (p a = false ∧ q a = true ∧ s a = false)
        ∨ (p a = false ∧ q a = false ∧ s a = true)) :
    (l.filter p).length + (l.filter q).length + (l.filter s).length = l.length := by
  induction l with
  | nil => rfl
  | cons a as ih =>
    rcases h a with ⟨h1, h2, h3⟩ | ⟨h1, h2, h3⟩ | ⟨h1, h2, h3⟩ <;>
      simp [List.filter_cons, h1, h2, h3] <;> omega

/-- Claim C5 (confirmed): the two boolean selections and their complement form an
exact partition of the input — the sizes add up to the input size, every record
occurrence is preserved (no duplication, no drop, stated per-record with `count`),
the three selections are pairwise disjoint, and a record with missing `closed_loop`
falls into neither cohort but into the excluded complement. -/
theorem cohort_split_partition (data : List RQ3Row) :
    ((closed_loop_prs data).length + (open_loop_prs data).length
        + (excluded_prs data).length = data.length)
    ∧ (∀ r : RQ3Row, data.count r = (closed_loop_prs data).count r
        + (open_loop_prs data).count r + (excluded_prs data).count r)
    ∧ (∀ r ∈ closed_loop_prs data, r ∉ open_loop_prs data ∧ r ∉ excluded_prs data)
    ∧ (∀ r ∈ open_loop_prs data, r ∉ excluded_prs data)
    ∧ (∀ r ∈ data, r.closed_loop = none →
        r ∉ closed_loop_prs data ∧ r ∉ open_loop_prs data ∧ r ∈ excluded_prs data) := by
  refine ⟨?_, ?_, ?_, ?_, ?_⟩
  · unfold closed_loop_prs open_loop_prs excluded_prs
    refine length_filter_three _ _ _ data (fun a => ?_)
    by_cases h1 : a.closed_loop = some 1
    · exact Or.inl (by simp [h1])
    · by_cases h0 : a.closed_loop = some 0
      · exact Or.inr (Or.inl (by simp [h1, h0]))
      · exact Or.inr (Or.inr (by simp [h1, h0]))
  · intro r
    by_cases h1 : r.closed_loop = some 1
    · have e1 : (closed_loop_prs data).count r = data.count r :=
        List.count_filter (by simp [h1])
      have e2 : (open_loop_prs data).count r = 0 :=
        List.count_eq_zero.mpr (fun hm => by
          simp [open_loop_prs, List.mem_filter, h1] at hm)
      have e3 : (excluded_prs data).count r = 0 :=
        List.count_eq_zero.mpr (fun hm => by
          simp [excluded_prs, List.mem_filter, h1] at hm)
      omega
    · by_cases h0 : r.closed_loop = some 0
      · have e1 : (closed_loop_prs data).count r = 0 :=
          List.count_eq_zero.mpr (fun hm => by
            simp [closed_loop_prs, List.mem_filter, h0] at hm)
        have e2 : (open_loop_prs data).count r = data.count r :=
          List.count_filter (by simp [h0])
        have e3 : (excluded_prs data).count r = 0 :=
          List.count_eq_zero.mpr (fun hm => by
            simp [excluded_prs, List.mem_filter, h0] at hm)
        omega
      · have e1 : (closed_loop_prs data).count r = 0 :=
          List.count_eq_zero.mpr (fun hm => by
            simp [closed_loop_prs, List.mem_filter, h1] at hm)
        have e2 : (open_loop_prs data).count r = 0 :=
          List.count_eq_zero.mpr (fun hm => by
            simp [open_loop_prs, List.mem_filter, h0] at hm)
        have e3 : (excluded_prs data).count r = data.count r :=
          List.count_filter (by simp [h1, h0])
        omega
  · intro r hr
    simp only [closed_loop_prs, List.mem_filter, decide_eq_true_eq] at hr
    constructor
    · intro hm
      simp [open_loop_prs, List.mem_filter, hr.2] at hm
    · intro hm
      simp [excluded_prs, List.mem_filter, hr.2] at hm
  · intro r hr
    simp only [open_loop_prs, List.mem_filter, decide_eq_true_eq] at hr
    intro hm
    simp [excluded_prs, List.mem_filter, hr.2] at hm
  · intro r hr hnone
    refine ⟨?_, ?_, ?_⟩
    · intro hm
      simp [closed_loop_prs, List.mem_filter, hnone] at hm
    · intro hm
      simp [open_loop_prs, List.mem_filter, hnone] at hm
    · simp [excluded_prs, List.mem_filter, hnone, hr]

/-- Witness for C5: on a three-record input (one closed-loop, one open-loop, one with
missing `closed_loop`), the sizes add to three and the missing-field record lands in
the excluded complement only. -/
theorem cohort_split_partition_witness :
    ((closed_loop_prs [⟨1, some 1, some 1, none, none⟩, ⟨2, some 0, some 0, none, none⟩,
        ⟨3, none, some 1, none, none⟩]).length
      + (open_loop_prs [⟨1, some 1, some 1, none, none⟩, ⟨2, some 0, some 0, none, none⟩,
        ⟨3, none, some 1, none, none⟩]).length
      + (excluded_prs [⟨1, some 1, some 1, none, none⟩, ⟨2, some 0, some 0, none, none⟩,
        ⟨3, none, some 1, none, none⟩]).length = 3)
    ∧ (⟨3, none, some 1, none, none⟩ : RQ3Row) ∉
        closed_loop_prs [⟨1, some 1, some 1, none, none⟩, ⟨2, some 0, some 0, none, none⟩,
          ⟨3, none, some 1, none, none⟩]
    ∧ (⟨3, none, some 1, none, none⟩ : RQ3Row) ∈
        excluded_prs [⟨1, some 1, some 1, none, none⟩, ⟨2, some 0, some 0, none, none⟩,
          ⟨3, none, some 1, none, none⟩] := by
  have h := cohort_split_partition [⟨1, some 1, some 1, none, none⟩,
    ⟨2, some 0, some 0, none, none⟩, ⟨3, none, some 1, none, none⟩]
  have h3 := h.2.2.2.2 ⟨3, none, some 1, none, none⟩ (by decide) rfl
  exact ⟨h.1, h3.1, h3.2.2⟩

/-- Claim C6 (code_bug): evaluation at the failing input.  On a dataset whose
closed-loop cohort is empty the crosstab has a single row category (a degenerate
1x2 table), yet the source's guard `contingency_table.size > 0` passes and a
chi-square result row is still produced instead of the test being skipped. -/
theorem chi_square_degenerate_eval :
    closed_loop_prs [⟨1, some 0, some 0, none, none⟩, ⟨2, some 0, some 1, none, none⟩] = []
    ∧ (ctRowKeys [⟨1, some 0, some 0, none, none⟩, ⟨2, some 0, some 1, none, none⟩]).length = 1
    ∧ chiSquareRows [⟨1, some 0, some 0, none, none⟩, ⟨2, some 0, some 1, none, none⟩]
        = [⟨"merge_rate", "Chi-square"⟩] := by decide

/-- Length of a filter-then-filterMap pipeline as a count over the original list. -/
theorem filter_filterMap_length {α β : Type} (p : α → Bool) (f : α → Option β)
    (l : List α) :
    ((l.filter p).filterMap f).length = l.countP (fun a => p a && (f a).isSome) := by
  induction l with
  | nil => rfl
  | cons a as ih =>
    by_cases hp : p a
    · cases hfa : f a with
      | none => simp [List.filter_cons, hp, List.filterMap_cons, hfa, List.countP_cons, ih]
      | some b => simp [List.filter_cons, hp, List.filterMap_cons, hfa, List.countP_cons, ih]
    · simp [List.filter_cons, hp, List.countP_cons, ih]

/-- Claim C7 (corrected): the describe step first drops missing values (a cohort's
count is the number of records of that cohort with a non-missing duration), and an
emitted descriptive row always has a positive count carrying its cohort's
non-missing size — when a cohort has zero non-missing values its row is omitted
entirely rather than emitted with count = 0. -/
theorem duration_desc_rows_spec (data : List RQ3Row) :
    ((closed_loop_duration data).length = data.countP
        (fun r => decide (r.closed_loop = some 1) && r.review_duration_hours.isSome))
    ∧ ((open_loop_duration data).length = data.countP
        (fun r => decide (r.closed_loop = some 0) && r.review_duration_hours.isSome))
    ∧ (∀ row ∈ durationDescRows data, 0 < row.count
        ∧ (row.group = "closed-loop" → row.count = (closed_loop_duration data).length)
        ∧ (row.group = "open-loop" → row.count = (open_loop_duration data).length))
    ∧ (closed_loop_duration data = [] →
        ∀ row ∈ durationDescRows data, row.group ≠ "closed-loop")
    ∧ (open_loop_duration data = [] →
        ∀ row ∈ durationDescRows data, row.group ≠ "open-loop") := by
  refine ⟨?_, ?_, ?_, ?_, ?_⟩
  · exact filter_filterMap_length _ _ data
  · exact filter_filterMap_length _ _ data
  · intro row hrow
    unfold durationDescRows at hrow
    rcases List.mem_append.mp hrow with h | h
    · split_ifs at h with hc
      · rw [List.mem_singleton] at h
        subst h
        exact ⟨hc, fun _ => rfl, fun hg => by simp at hg⟩
      · cases h
    · split_ifs at h with ho
      · rw [List.mem_singleton] at h
        subst h
        exact ⟨ho, fun hg => by simp at hg, fun _ => rfl⟩
      · cases h
  · intro he row hrow
    unfold durationDescRows at hrow
    rcases List.mem_append.mp hrow with h | h
    · rw [if_neg (by simp [he])] at h
      cases h
    · split_ifs at h with ho
      · rw [List.mem_singleton] at h
        subst h
        simp
      · cases h
  · intro he row hrow
    unfold durationDescRows at hrow
    rcases List.mem_append.mp hrow with h | h
    · split_ifs at h with hc
      · rw [List.mem_singleton] at h
        subst h
        simp
      · cases h
    · rw [if_neg (by simp [he])] at h
      cases h

/-- Counterexample for C7: a cohort that is non-empty but has only missing durations
gets no descriptive row at all — the row is omitted, not emitted with count = 0. -/
theorem duration_desc_empty_cohort_cex :
    closed_loop_prs [⟨1, some 1, some 1, none, none⟩] ≠ []
    ∧ closed_loop_duration [⟨1, some 1, some 1, none, none⟩] = []
    ∧ durationDescRows [⟨1, some 1, some 1, none, none⟩] = [] := by decide

/-- Witness for C7: with one closed-loop record of duration 2 and one open-loop
record with a missing duration, the single emitted row is the closed-loop one and
carries count 1. -/
theorem duration_desc_rows_spec_witness :
    0 < ((⟨"review_duration_hours", "closed-loop",
      pandasMedian (closed_loop_duration [⟨1, some 1, some 1, some 2, none⟩,
        ⟨2, some 0, some 0, none, none⟩]),
      meanQ (closed_loop_duration [⟨1, some 1, some 1, some 2, none⟩,
        ⟨2, some 0, some 0, none, none⟩]),
      (closed_loop_duration [⟨1, some 1, some 1, some 2, none⟩,
        ⟨2, some 0, some 0, none, none⟩]).length⟩ : DescRow)).count := by
  have hmem : (⟨"review_duration_hours", "closed-loop",
      pandasMedian (closed_loop_duration [⟨1, some 1, some 1, some 2, none⟩,
        ⟨2, some 0, some 0, none, none⟩]),
      meanQ (closed_loop_duration [⟨1, some 1, some 1, some 2, none⟩,
        ⟨2, some 0, some 0, none, none⟩]),
      (closed_loop_duration [⟨1, some 1, some 1, some 2, none⟩,
        ⟨2, some 0, some 0, none, none⟩]).length⟩ : DescRow)
      ∈ durationDescRows [⟨1, some 1, some 1, some 2, none⟩,
        ⟨2, some 0, some 0, none, none⟩] := by
    unfold durationDescRows
    rw [if_pos (by decide), if_neg (by decide)]
    simp
  exact ((duration_desc_rows_spec [⟨1, some 1, some 1, some 2, none⟩,
    ⟨2, some 0, some 0, none, none⟩]).2.2.1 _ hmem).1

/-- Claim C8 (confirmed): a Mann-Whitney/effect-size result row exists exactly when
both cohort samples are non-empty; when either sample is empty no row is produced
for that metric (nothing is fabricated), for the duration metric and the
comment-count metric alike. -/
theorem mann_whitney_guard_spec (data : List RQ3Row) :
    (durationTestRows data = [] ↔
      closed_loop_duration data = [] ∨ open_loop_duration data = [])
    ∧ (commentsTestRows data = [] ↔
      closed_loop_comments data = [] ∨ open_loop_comments data = []) := by
  constructor
  · by_cases h : 0 < (closed_loop_duration data).length
        ∧ 0 < (open_loop_duration data).length
    · rw [durationTestRows, if_pos h]
      have h1 : closed_loop_duration data ≠ [] := List.length_pos.mp h.1
      have h2 : open_loop_duration data ≠ [] := List.length_pos.mp h.2
      simp [h1, h2]
    · rw [durationTestRows, if_neg h]
      have : closed_loop_duration data = [] ∨ open_loop_duration data = [] := by
        by_cases hc : closed_loop_duration data = []
        · exact Or.inl hc
        · by_cases ho : open_loop_duration data = []
          · exact Or.inr ho
          · exact absurd ⟨List.length_pos.mpr hc, List.length_pos.mpr ho⟩ h
      simp [this]
  · by_cases h : 0 < (closed_loop_comments data).length
        ∧ 0 < (open_loop_comments data).length
    · rw [commentsTestRows, if_pos h]
      have h1 : closed_loop_comments data ≠ [] := List.length_pos.mp h.1
      have h2 : open_loop_comments data ≠ [] := List.length_pos.mp h.2
      simp [h1, h2]
    · rw [commentsTestRows, if_neg h]
      have : closed_loop_comments data = [] ∨ open_loop_comments data = [] := by
        by_cases hc : closed_loop_comments data = []
        · exact Or.inl hc
        · by_cases ho : open_loop_comments data = []
          · exact Or.inr ho
          · exact absurd ⟨List.length_pos.mpr hc, List.length_pos.mpr ho⟩ h
      simp [this]

/-- Witness for C8: with a non-empty closed-loop sample but an empty open-loop
sample, no duration test row is produced. -/
theorem mann_whitney_guard_spec_witness :
    durationTestRows [⟨1, some 1, some 1, some 2, none⟩] = [] :=
  (mann_whitney_guard_spec [⟨1, some 1, some 1, some 2, none⟩]).1.mpr
    (Or.inr (by decide))

/-- The expansion step's per-comment behaviour: the rows' categories are the
comment's category list (or the single "other" default when that list is empty),
and every row carries the comment's sentiment and the shared multi-category flag. -/
theorem expandComment_base (c : CommentRow) :
    ((expandComment c).map (fun r => r.category)
      = (if categorize_comment c.body = [] then ["other"] else categorize_comment c.body))
    ∧ (∀ r ∈ expandComment c, r.sentiment = analyze_sentiment c.body
        ∧ r.has_multiple_categories = decide (1 < (categorize_comment c.body).length)) := by
  by_cases h : categorize_comment c.body = []
  · constructor
    · simp [expandComment, h]
    · intro r hr
      simp [expandComment, h] at hr
      subst hr
      simp [h]
  · have hl : 0 < (categorize_comment c.body).length := List.length_pos.mpr h
    constructor
    · simp [expandComment, hl, h, Function.comp_def]
    · intro r hr
      simp [expandComment, hl] at hr
      obtain ⟨cat, _, hr⟩ := hr
      rw [← hr]
      exact ⟨rfl, rfl⟩

/-- The category list returned by the classifier never repeats a label. -/
theorem categorize_comment_nodup (t : Option (List Char)) :
    (categorize_comment t).Nodup := by
  cases t with
  | none => simp [categorize_comment]
  | some s =>
    simp only [categorize_comment]
    split_ifs <;> decide

/-- Claim C9 (confirmed): expansion produces one row per carried category label (in
order, with the single "other" default exactly when the category list is empty), the
labels are pairwise distinct so each label yields exactly one row, all rows of one
comment share its sentiment and its multi-category flag (set exactly when the
comment has two or more labels), and a comment with 2 categories contributes 2
rows. -/
theorem expandComment_spec (c : CommentRow) :
    ((expandComment c).map (fun r => r.category)
      = (if categorize_comment c.body = [] then ["other"] else categorize_comment c.body))
    ∧ (categorize_comment c.body).Nodup
    ∧ (∀ r ∈ expandComment c, r.sentiment = analyze_sentiment c.body
        ∧ r.has_multiple_categories = decide (1 < (categorize_comment c.body).length))
    ∧ ((categorize_comment c.body).length = 2 → (expandComment c).length = 2) := by
  refine ⟨(expandComment_base c).1, categorize_comment_nodup c.body,
    (expandComment_base c).2, fun h2 => ?_⟩
  have hm := congrArg List.length (expandComment_base c).1
  rw [List.length_map] at hm
  have hne : categorize_comment c.body ≠ [] := by
    intro he
    rw [he] at h2
    cases h2
  rw [if_neg hne] at hm
  rw [hm, h2]

/-- Witness for C9: a comment matching both a corrective and a security keyword
expands to two rows; its first expanded row carries the comment's sentiment. -/
theorem expandComment_spec_witness :
    ((⟨1, 1, "corrective", "neutral", true⟩ : ExpandedRow)).sentiment
        = analyze_sentiment (some (("bug security").data))
    ∧ (expandComment ⟨1, 1, some (("bug security").data)⟩).length = 2 := by
  have h := expandComment_spec ⟨1, 1, some (("bug security").data)⟩
  exact ⟨(h.2.2.1 ⟨1, 1, "corrective", "neutral", true⟩ (by decide)).1,
    h.2.2.2 (by decide)⟩

/-- Counterexample for C2: for a null text the classifier's category list is empty —
"other" is not in it — contrary to the claimed category set {"other"}; the sentiment
is "neutral" as claimed. -/
theorem categorize_comment_null_cex :
    categorize_comment none = ([] : List String)
    ∧ "other" ∉ categorize_comment none
    ∧ analyze_sentiment none = "neutral" := by decide

/-- Claim C2 (corrected): for an absent/null comment text `categorize_comment`
returns the empty category list (not {"other"}) and `analyze_sentiment` returns
"neutral"; the downstream expansion step then emits for such a comment exactly one
row with category "other", sentiment "neutral" and has_multiple_categories =
false. -/
theorem classify_null_behavior (prId cid : Nat) :
    categorize_comment none = ([] : List String)
    ∧ analyze_sentiment none = "neutral"
    ∧ expandComment ⟨prId, cid, none⟩
        = [⟨prId, cid, "other", "neutral", false⟩] :=
  ⟨rfl, rfl, rfl⟩

/-- Counterexample for C1: in "good good good bad" the positive phrases have three
substring occurrences against one negative occurrence, so the claimed
occurrence-count rule yields "positive", but `analyze_sentiment` counts each phrase
at most once (1 vs 1) and returns "neutral". -/
theorem analyze_sentiment_occurrences_cex :
    (positive_words.map (fun w => occCount w (lowerL (("good good good bad").data)))).sum = 3
    ∧ (negative_words.map (fun w => occCount w (lowerL (("good good good bad").data)))).sum = 1
    ∧ sentimentByOccurrences (("good good good bad").data) = "positive"
    ∧ analyze_sentiment (some (("good good good bad").data)) = "neutral" := by decide

/-- Claim C1 (corrected): for every non-null text the sentiment is determined by
comparing the numbers of positive and negative keyword phrases that occur at least
once as case-insensitive substrings (each phrase counted once, not once per
occurrence; multi-word phrases match as a unit): strictly more positive phrases
gives "positive", strictly more negative phrases gives "negative", and a tie
(including zero-zero) gives "neutral". -/
theorem analyze_sentiment_presence_rule (t : List Char) :
    (((negative_words.filter (fun w => containsSub (lowerL t) w)).length
        < (positive_words.filter (fun w => containsSub (lowerL t) w)).length) →
      analyze_sentiment (some t) = "positive")
    ∧ (((positive_words.filter (fun w => containsSub (lowerL t) w)).length
        < (negative_words.filter (fun w => containsSub (lowerL t) w)).length) →
      analyze_sentiment (some t) = "negative")
    ∧ (((positive_words.filter (fun w => containsSub (lowerL t) w)).length
        = (negative_words.filter (fun w => containsSub (lowerL t) w)).length) →
      analyze_sentiment (some t) = "neutral") := by
  refine ⟨fun h => ?_, fun h => ?_, fun h => ?_⟩ <;> simp only [analyze_sentiment]
  · rw [if_pos h]
  · rw [if_neg (by omega), if_pos h]
  · rw [if_neg (by omega), if_neg (by omega)]

/-- Witness for C1 (amended): "lgtm, great work" has two positive phrases and no
negative one, and is classified "positive". -/
theorem analyze_sentiment_presence_rule_witness :
    analyze_sentiment (some (("lgtm, great work").data)) = "positive" :=
  (analyze_sentiment_presence_rule (("lgtm, great work").data)).1 (by decide)

/-- Counterexample for C3: "bug style security" contains a corrective keyword and a
security keyword, yet its category set is not exactly {"corrective","security"} —
it also holds "style". -/
theorem categorize_exactly_two_cex :
    CORRECTIVE_KEYWORDS.any
        (fun k => containsSub (lowerL (("bug style security").data)) k) = true
    ∧ SECURITY_KEYWORDS.any
        (fun k => containsSub (lowerL (("bug style security").data)) k) = true
    ∧ categorize_comment (some (("bug style security").data))
        = ["corrective", "style", "security"]
    ∧ "style" ∈ categorize_comment (some (("bug style security").data)) := by decide

/-- Claim C3 (corrected): a text containing both a corrective and a security keyword
is classified with a category set containing at least "corrective" and "security"
(possibly more labels), hence of size at least two, and every expanded row of such a
comment carries has_multiple_categories = true. -/
theorem categorize_corrective_security_super (t : List Char)
    (h1 : CORRECTIVE_KEYWORDS.any (fun k => containsSub (lowerL t) k) = true)
    (h2 : SECURITY_KEYWORDS.any (fun k => containsSub (lowerL t) k) = true) :
    "corrective" ∈ categorize_comment (some t)
    ∧ "security" ∈ categorize_comment (some t)
    ∧ 2 ≤ (categorize_comment (some t)).length
    ∧ (∀ prId cid : Nat, ∀ r ∈ expandComment ⟨prId, cid, some t⟩,
        r.has_multiple_categories = true) := by
  have hmem : "corrective" ∈ categorize_comment (some t)
      ∧ "security" ∈ categorize_comment (some t)
      ∧ 2 ≤ (categorize_comment (some t)).length := by
    by_cases h3 : STYLE_KEYWORDS.any (fun k => containsSub (lowerL t) k) = true <;>
      by_cases h4 : TESTING_KEYWORDS.any (fun k => containsSub (lowerL t) k) = true <;>
      simp [categorize_comment, h1, h2, h3, h4]
  refine ⟨hmem.1, hmem.2.1, hmem.2.2, fun prId cid r hr => ?_⟩
  have hb := (expandComment_base ⟨prId, cid, some t⟩).2 r hr
  have hlt : 1 < (categorize_comment (some t)).length := by
    have := hmem.2.2
    omega
  simp only [hb.2]
  simp [hlt]

/-- Witness for C3 (amended): the spec's own example text is classified with both
labels, and its expanded rows all carry the multi-category flag. -/
theorem categorize_corrective_security_super_witness :
    "corrective" ∈ categorize_comment
        (some (("This is broken and has a security vulnerability").data))
    ∧ "security" ∈ categorize_comment
        (some (("This is broken and has a security vulnerability").data)) := by
  have h := categorize_corrective_security_super
    (("This is broken and has a security vulnerability").data) (by decide) (by decide)
  exact ⟨h.1, h.2.1⟩
